import Mathlib

/-!
Verification of the PAC-therapy ODE script
(`v_pac_therapy_in_a_system_with_susceptible_and_antibiotic_resistant_bacteria.py`).

The script defines two step-function dosing schedules (`antibiotic_input`,
`phage_input`), two population-fraction functions (`alpha`, `sigma`), a
four-dimensional ODE right-hand side (`model`), and integrates it on a fixed
evaluation grid (`t_eval = numpy.linspace(0, 126, 126)`).

Embedding conventions:
* Numeric values are embedded in an arbitrary linear ordered field, so the
  same definitions can be read over `ℚ` (exact, executable) and over `ℝ`
  (needed for the irrational parameter values such as `10 ** 5.4`).
  Numeric literals of the source are read exactly (e.g. `6.61 = 661/100`).
* Python's `/` raises `ZeroDivisionError` on a zero denominator, so division
  is embedded as the fallible `pydiv : α → α → Option α`, and every function
  whose body divides is `Option`-valued; `none` models a raised exception.
* The source's commented-out clamping block is dead code and is not embedded.
-/

namespace PacTherapy

variable {α : Type} [LinearOrderedField α]

/-- Python division: `a / b`, raising `ZeroDivisionError` (here `none`)
when the denominator is zero. -/
def pydiv (a b : α) : Option α := if b = 0 then none else some (a / b)

/-- The loop shared by `antibiotic_input` and `phage_input`:
`for t_n in injection_times: if t_n <= t < t_n + infusion_duration: return dose`,
falling through to `return 0`. -/
def injectionLoop (dose infusion_duration : α) : List α → α → α
  | [], _ => 0
  | t_n :: rest, t =>
      if t_n ≤ t ∧ t < t_n + infusion_duration then dose
      else injectionLoop dose infusion_duration rest t

/-- `antibiotic_input(t)`: `injection_times = [100]`, `dose = 6.61`,
`infusion_duration = 1`. -/
def antibiotic_input (t : α) : α := injectionLoop (661 / 100) 1 [100] t

/-- `phage_input(t)`: `injection_times = [0]`, `dose = 0`,
`infusion_duration = 1`. -/
def phage_input (t : α) : α := injectionLoop 0 1 [0] t

/-- `alpha(A, S)`: `total = A + S; alpha = A / total;
return alpha if total > 0 else 0`.  Note that the division is executed
before the `total > 0` guard is consulted. -/
def alpha (A S : α) : Option α := do
  let total := A + S
  let a ← pydiv A total
  pure (if total > 0 then a else 0)

/-- `sigma(A, S)`: `total = A + S; sigma = S / total;
return sigma if total > 0 else 0`. -/
def sigma (A S : α) : Option α := do
  let total := A + S
  let s ← pydiv S total
  pure (if total > 0 then s else 0)

/-- `model(t, y, γ, e, ka, rS, K, mA, mS, rA, i, d, b)` with
`y = (Ca, S, A, P)` unpacked into four scalar arguments: the ODE right-hand
side `[dCa_dt, dS_dt, dA_dt, dP_dt]`.  `σ` and `α` are recomputed from the
current `(A, S)` on each call; the two divisions by `K` mirror the two
occurrences of `(S + A) / K` in the source; no clamping is performed. -/
def model (t Ca S A P γ e ka rS K mA mS rA i d b : α) :
    Option (α × α × α × α) := do
  let σ ← sigma A S
  let av ← alpha A S
  let dCa_dt := -γ * Ca + antibiotic_input t
  let qS ← pydiv (S + A) K
  let dS_dt := rS * S * (1 - qS) - (e * Ca * ka) - (i * S * σ * P) - (mA * S) + (mS * A)
  let qA ← pydiv (S + A) K
  let dA_dt := rA * A * (1 - qA) - (i * A * av * P) + (mA * S) - (mS * A)
  let dP_dt := b * i * P * (σ * S + av * A) - (d * P) + phage_input t
  pure (dCa_dt, dS_dt, dA_dt, dP_dt)

/-- When the combined population is nonzero, `sigma` returns the guarded
fraction. -/
lemma sigma_eq_of_total_ne_zero (A S : α) (hAS : A + S ≠ 0) :
    sigma A S = some (if 0 < A + S then S / (A + S) else 0) := by
  simp [sigma, pydiv, hAS]

/-- When the combined population is nonzero, `alpha` returns the guarded
fraction. -/
lemma alpha_eq_of_total_ne_zero (A S : α) (hAS : A + S ≠ 0) :
    alpha A S = some (if 0 < A + S then A / (A + S) else 0) := by
  simp [alpha, pydiv, hAS]

/-- Closed form of `model` when neither division raises. -/
lemma model_eq_of_ne_zero (t Ca S A P γ e ka rS K mA mS rA i d b : α)
    (hAS : A + S ≠ 0) (hK : K ≠ 0) :
    model t Ca S A P γ e ka rS K mA mS rA i d b =
      some (-γ * Ca + antibiotic_input t,
        rS * S * (1 - (S + A) / K) - (e * Ca * ka)
          - (i * S * (if 0 < A + S then S / (A + S) else 0) * P) - (mA * S) + (mS * A),
        rA * A * (1 - (S + A) / K)
          - (i * A * (if 0 < A + S then A / (A + S) else 0) * P) + (mA * S) - (mS * A),
        b * i * P * ((if 0 < A + S then S / (A + S) else 0) * S
          + (if 0 < A + S then A / (A + S) else 0) * A) - (d * P) + phage_input t) := by
  simp [model, sigma, alpha, pydiv, hAS, hK]

/-- `numpy.linspace(start, stop, num)` with the default `endpoint=True`
(for `num ≥ 2`): `num` samples `start + (stop - start) * k / (num - 1)` for
`k = 0, …, num - 1`, so both endpoints are included. -/
def linspace (start stop : ℚ) (num : ℕ) : List ℚ :=
  (List.range num).map
    (fun k : ℕ => start + (stop - start) * (k : ℚ) / ((num : ℚ) - 1))

/-- `t_end = 126` (hours). -/
def t_end : ℚ := 126

/-- `timesteps = 126`. -/
def timesteps : ℕ := 126

/-- `t_eval = np.linspace(0, t_end, timesteps)`. -/
def t_eval : List ℚ := linspace 0 t_end timesteps

/-- Modelled from the spec: `scipy.integrate.solve_ivp` is a library routine
not contained in this repository; its documented contract used here is that
a successful call with evaluation points `t_eval` returns a solution whose
`y` attribute holds one output sequence per state component, sampled at
exactly the points of `t_eval`.  The underlying solution map
`sol : time → state` is left abstract. -/
def result_y (sol : ℚ → ℚ × ℚ × ℚ × ℚ) :
    List ℚ × List ℚ × List ℚ × List ℚ :=
  (t_eval.map (fun t => (sol t).1),
   t_eval.map (fun t => (sol t).2.1),
   t_eval.map (fun t => (sol t).2.2.1),
   t_eval.map (fun t => (sol t).2.2.2))

/-- Index formula for `t_eval`: the `k`-th grid point is `126 * k / 125`. -/
lemma t_eval_getD (k : ℕ) (hk : k < 126) :
    t_eval.getD k 0 = 126 * k / 125 := by
  simp only [t_eval, t_end, timesteps, linspace]
  rw [List.getD_eq_getElem?_getD, List.getElem?_map, List.getElem?_range hk,
    Option.map_some', Option.getD_some]
  norm_num

/-- Claim C1, counter-evidence: with a zero combined population the division
`A / total` in `alpha` (and `S / total` in `sigma`) is executed before the
`total > 0` guard, so `alpha(0, 0)` and `sigma(0, 0)` raise
`ZeroDivisionError` (modeled as `none`) instead of returning `0`. -/
theorem alpha_sigma_total_zero_raises :
    alpha (0 : ℚ) 0 = none ∧ sigma (0 : ℚ) 0 = none := by
  constructor <;> simp [alpha, sigma, pydiv]

/-- Claim C3: for every real time `t`, `antibiotic_input t` equals `6.61`
(read exactly as `661/100`) when `100 ≤ t < 101` and `0` otherwise. -/
theorem antibiotic_input_piecewise (t : ℝ) :
    antibiotic_input t = if 100 ≤ t ∧ t < 101 then 661 / 100 else 0 := by
  show (if (100 : ℝ) ≤ t ∧ t < 100 + 1 then 661 / 100 else 0) =
    if 100 ≤ t ∧ t < 101 then 661 / 100 else 0
  norm_num

/-- Claim C5: for every real time `t`, `phage_input t = 0`: the configured
dose is `0`, so both the matched-window branch and the fall-through branch
return `0`. -/
theorem phage_input_always_zero (t : ℝ) : phage_input t = 0 := by
  show (if (0 : ℝ) ≤ t ∧ t < 0 + 1 then 0 else 0) = 0
  exact ite_self 0

/-- Claim C4: for `A, S ≥ 0` with `A + S > 0`, both fraction functions
return normally and their values sum to `1` (exactly, in `ℚ`). -/
theorem alpha_add_sigma_eq_one (A S : ℚ) (hA : 0 ≤ A) (hS : 0 ≤ S)
    (h : 0 < A + S) :
    ∃ a s, alpha A S = some a ∧ sigma A S = some s ∧ a + s = 1 := by
  refine ⟨A / (A + S), S / (A + S), ?_, ?_, ?_⟩
  · rw [alpha_eq_of_total_ne_zero A S (ne_of_gt h), if_pos h]
  · rw [sigma_eq_of_total_ne_zero A S (ne_of_gt h), if_pos h]
  · field_simp

/-- Witness for C4 at `A = 1`, `S = 1`. -/
theorem alpha_add_sigma_eq_one_witness :
    (0 : ℚ) ≤ 1 ∧ (0 : ℚ) ≤ 1 ∧ (0 : ℚ) < 1 + 1 ∧
      ∃ a s, alpha (1 : ℚ) 1 = some a ∧ sigma (1 : ℚ) 1 = some s ∧ a + s = 1 :=
  ⟨by norm_num, by norm_num, by norm_num,
    alpha_add_sigma_eq_one 1 1 (by norm_num) (by norm_num) (by norm_num)⟩

/-- Claim C10: with a strictly negative combined population the divisions
succeed, the `total > 0` guard fails, and both fraction functions return
`0` rather than the ratios `A/(A+S)` and `S/(A+S)`. -/
theorem alpha_sigma_negative_total (A S : ℚ) (h : A + S < 0) :
    alpha A S = some 0 ∧ sigma A S = some 0 := by
  have hne : A + S ≠ 0 := ne_of_lt h
  have hnot : ¬ 0 < A + S := not_lt.mpr (le_of_lt h)
  constructor
  · rw [alpha_eq_of_total_ne_zero A S hne, if_neg hnot]
  · rw [sigma_eq_of_total_ne_zero A S hne, if_neg hnot]

/-- Witness for C10 at `A = -1`, `S = 0`. -/
theorem alpha_sigma_negative_total_witness :
    (-1 : ℚ) + 0 < 0 ∧
      (alpha (-1 : ℚ) 0 = some 0 ∧ sigma (-1 : ℚ) 0 = some 0) :=
  ⟨by norm_num, alpha_sigma_negative_total (-1) 0 (by norm_num)⟩

/-- Claim C2: whenever neither division raises (combined population and
carrying capacity nonzero), `model` returns exactly the four-component
vector of the specified right-hand sides, with `σ` and `α` the values
freshly produced by `sigma` and `alpha` from the current `(A, S)`, and with
no clamping (the state components are arbitrary, negative values included). -/
theorem model_rhs_exact (t Ca S A P γ e ka rS K mA mS rA i d b : ℚ)
    (hAS : A + S ≠ 0) (hK : K ≠ 0) :
    ∃ σv av, sigma A S = some σv ∧ alpha A S = some av ∧
      model t Ca S A P γ e ka rS K mA mS rA i d b =
        some (-γ * Ca + antibiotic_input t,
          rS * S * (1 - (S + A) / K) - (e * Ca * ka) - (i * S * σv * P)
            - (mA * S) + (mS * A),
          rA * A * (1 - (S + A) / K) - (i * A * av * P) + (mA * S) - (mS * A),
          b * i * P * (σv * S + av * A) - (d * P) + phage_input t) :=
  ⟨_, _, sigma_eq_of_total_ne_zero A S hAS, alpha_eq_of_total_ne_zero A S hAS,
    model_eq_of_ne_zero t Ca S A P γ e ka rS K mA mS rA i d b hAS hK⟩

/-- Witness for C2 at `t = 0`, state `(Ca, S, A, P) = (0, 1, 1, 0)` and all
parameters `1`. -/
theorem model_rhs_exact_witness :
    (1 : ℚ) + 1 ≠ 0 ∧ (1 : ℚ) ≠ 0 ∧
      (∃ σv av, sigma (1 : ℚ) 1 = some σv ∧ alpha (1 : ℚ) 1 = some av ∧
        model 0 0 1 1 0 1 1 1 1 1 1 1 1 1 1 1 =
          some (-1 * 0 + antibiotic_input 0,
            1 * 1 * (1 - (1 + 1) / 1) - (1 * 0 * 1) - (1 * 1 * σv * 0)
              - (1 * 1) + (1 * 1),
            1 * 1 * (1 - (1 + 1) / 1) - (1 * 1 * av * 0) + (1 * 1) - (1 * 1),
            1 * 1 * 0 * (σv * 1 + av * 1) - (1 * 0) + phage_input 0)) :=
  ⟨by norm_num, by norm_num,
    model_rhs_exact 0 0 1 1 0 1 1 1 1 1 1 1 1 1 1 1 (by norm_num) (by norm_num)⟩

/-- Claim C9: the mutation terms cancel in the combined bacterial
derivative: whenever `model` returns, the sum of its second and third
components equals an expression free of `mA` and `mS`. -/
theorem mutation_terms_cancel (t Ca S A P γ e ka rS K mA mS rA i d b : ℚ)
    (hAS : A + S ≠ 0) (hK : K ≠ 0) :
    ∃ σv av dCa dS dA dP,
      sigma A S = some σv ∧ alpha A S = some av ∧
      model t Ca S A P γ e ka rS K mA mS rA i d b = some (dCa, dS, dA, dP) ∧
      dS + dA = rS * S * (1 - (S + A) / K) + rA * A * (1 - (S + A) / K)
        - e * Ca * ka - i * P * (σv * S + av * A) := by
  refine ⟨_, _, _, _, _, _, sigma_eq_of_total_ne_zero A S hAS,
    alpha_eq_of_total_ne_zero A S hAS,
    model_eq_of_ne_zero t Ca S A P γ e ka rS K mA mS rA i d b hAS hK, ?_⟩
  ring

/-- Witness for C9 at `t = 0`, state `(Ca, S, A, P) = (0, 1, 1, 0)` and all
parameters `1`. -/
theorem mutation_terms_cancel_witness :
    (1 : ℚ) + 1 ≠ 0 ∧ (1 : ℚ) ≠ 0 ∧
      (∃ σv av dCa dS dA dP,
        sigma (1 : ℚ) 1 = some σv ∧ alpha (1 : ℚ) 1 = some av ∧
        model 0 0 1 1 0 1 1 1 1 1 1 1 1 1 1 1 = some (dCa, dS, dA, dP) ∧
        dS + dA = 1 * 1 * (1 - (1 + 1) / 1) + 1 * 1 * (1 - (1 + 1) / 1)
          - 1 * 0 * 1 - 1 * 0 * (σv * 1 + av * 1)) :=
  ⟨by norm_num, by norm_num,
    mutation_terms_cancel 0 0 1 1 0 1 1 1 1 1 1 1 1 1 1 1
      (by norm_num) (by norm_num)⟩

/-- Claim C8: at `t = 0` with the initial state
`y0 = (0, 0.5 * 10 ** 4.67, 0.5 * 10 ** 4.67, 10 ** 6.27)` and the fixed
parameter values of the script, `model` returns normally and its first
component (`dCa_dt`) is exactly `0`: `Ca = 0` and `antibiotic_input 0 = 0`. -/
theorem model_dCa_zero_at_t0 :
    (model (0 : ℝ) 0 (0.5 * (10 : ℝ) ^ (4.67 : ℝ)) (0.5 * (10 : ℝ) ^ (4.67 : ℝ))
        ((10 : ℝ) ^ (6.27 : ℝ)) 0.23 1 ((10 : ℝ) ^ (5.4 : ℝ)) 1.85
        ((10 : ℝ) ^ (7.94 : ℝ)) ((10 : ℝ) ^ (-6.03 : ℝ)) ((10 : ℝ) ^ (-6.03 : ℝ))
        1.63 ((10 : ℝ) ^ (-6.21 : ℝ)) 0.10 106).map (fun out => out.1) =
      some 0 := by
  have hAS : (0.5 * (10 : ℝ) ^ (4.67 : ℝ)) + (0.5 * (10 : ℝ) ^ (4.67 : ℝ)) ≠ 0 :=
    ne_of_gt (by positivity)
  have hK : ((10 : ℝ) ^ (7.94 : ℝ)) ≠ 0 := ne_of_gt (by positivity)
  rw [model_eq_of_ne_zero _ _ _ _ _ _ _ _ _ _ _ _ _ _ _ _ hAS hK]
  norm_num [antibiotic_input, injectionLoop]

/-- Claim C6: the evaluation grid `t_eval` has exactly 126 points, starts at
`0`, ends at `126` (both endpoints included), is evenly spaced with step
`126/125`, and for any solution map the integration driver's four output
sequences each have one entry per grid point, i.e. length exactly 126. -/
theorem integration_grid_shape :
    (∀ sol : ℚ → ℚ × ℚ × ℚ × ℚ,
      (result_y sol).1.length = 126 ∧ (result_y sol).2.1.length = 126 ∧
      (result_y sol).2.2.1.length = 126 ∧ (result_y sol).2.2.2.length = 126) ∧
    t_eval.length = 126 ∧ t_eval.getD 0 0 = 0 ∧ t_eval.getD 125 0 = 126 ∧
    ∀ k : Fin 125, t_eval.getD (k.1 + 1) 0 - t_eval.getD k.1 0 = 126 / 125 := by
  have hlen : t_eval.length = 126 := by
    simp only [t_eval, t_end, timesteps, linspace, List.length_map,
      List.length_range]
  refine ⟨fun sol => ?_, hlen, ?_, ?_, fun k => ?_⟩
  · simp only [result_y, List.length_map, hlen, and_self]
  · rw [t_eval_getD 0 (by norm_num)]; norm_num
  · rw [t_eval_getD 125 (by norm_num)]; norm_num
  · rw [t_eval_getD (k.1 + 1) (by omega), t_eval_getD k.1 (by omega)]
    push_cast
    ring

end PacTherapy
